import Mathlib

/-!
# Verification of the `go_web_app` scaffold

Shallow embedding of the repository's lifecycle orchestrator (`main.go`),
the structured-logger package (`logger/logger.go`), the gin middlewares
`GinLogger` and `GinRecovery`, and the resource `Close` functions of
`dao/mysql/mysql.go` and the redis dao package.

Machine behaviour that the Go runtime or the imported libraries fix is
embedded from their documented semantics:
* `defer`red calls run in LIFO order when the surrounding function returns,
  and do NOT run when the process exits through `os.Exit`;
* `zap.Logger.Fatal` writes the log record and then calls `os.Exit(1)`
  (zap's default `WriteThenFatal` behaviour);
* `lumberjack.Logger` opens its destination file lazily on the first write,
  so constructing it (as `getLogWriter` does) performs no I/O and cannot fail;
* calling a promoted method through a nil pointer (`db.Close()` with
  `db == nil`) panics with a nil-pointer dereference, while
  `(*sql.DB).Close` / `(*redis.Client).Close` on a live handle are safe to
  call twice (the second call is a no-op on the already-closed pool).
-/

namespace WebApp

/-- Observable events of one run of `main` (log records, resource
releases, process-level actions), in emission order. -/
inductive Event where
  | printErr (msg : String)
  | logDebug (msg : String)
  | logInfo (msg : String)
  | logFatal (msg : String)
  | listenerStart
  | mysqlClose
  | redisClose
  | loggerSync
  | exitProcess (code : Nat)
  deriving DecidableEq, Repr

/-- The external world one run of `main` interacts with: the outcome of each
fallible initializer and of `srv.Shutdown` under the 5-second context.
`none` = the call returned `nil`; `some e` = it returned error `e`.
A termination signal is assumed to arrive (the claims under study are about
runs that reach shutdown or abort earlier). -/
structure World where
  settingsInitErr : Option String
  loggerInitErr : Option String
  mysqlInitErr : Option String
  redisInitErr : Option String
  shutdownErr : Option String
  deriving DecidableEq, Repr

/-- Embedding of `main` (src/main.go): runs the startup sequence fail-fast,
registers deferred cleanups as the source does (`zap.L().Sync()` after
logger init, `mysql.Close()` after mysql init, `redis.Close()` after redis
init), starts the listener goroutine, waits for the signal, logs
"Shutdown Server ...", calls `srv.Shutdown(ctx)`; on a shutdown error it
calls `zap.L().Fatal`, which logs at fatal level and exits the process with
code 1 (skipping every deferred call); otherwise it logs "Server exiting"
and returns, running the deferred calls in LIFO order. -/
def runMain (w : World) : List Event :=
  match w.settingsInitErr with
  | some e => [.printErr ("init settings failed, error: " ++ e)]
  | none =>
    match w.loggerInitErr with
    | some e => [.printErr ("init logger failed, error: " ++ e)]
    | none =>
      -- defer zap.L().Sync() is now registered
      .logDebug "logger initialized successfully" ::
      match w.mysqlInitErr with
      | some e => [.printErr ("init mysql failed, error: " ++ e), .loggerSync]
      | none =>
        -- defer mysql.Close() is now registered
        match w.redisInitErr with
        | some e => [.printErr ("init redis failed, error: " ++ e),
                     .mysqlClose, .loggerSync]
        | none =>
          -- defer redis.Close() is now registered
          .listenerStart ::
          .logInfo "Shutdown Server ..." ::
          match w.shutdownErr with
          | some _ =>
            -- zap.L().Fatal: log the record, then os.Exit(1); defers skipped
            [.logFatal "Server Shutdown", .exitProcess 1]
          | none =>
            [.logInfo "Server exiting", .redisClose, .mysqlClose, .loggerSync]

/-- A world in which every initializer succeeds. -/
def World.startupOk (w : World) : Prop :=
  w.settingsInitErr = none ∧ w.loggerInitErr = none ∧
  w.mysqlInitErr = none ∧ w.redisInitErr = none

instance : DecidablePred World.startupOk := fun w => by
  unfold World.startupOk; infer_instance

/-! ## Resource handles and their `Close` functions -/

/-- The mysql connection pool handle (`*sqlx.DB`): only its open/closed
state is relevant to the release claims. -/
structure SqlConn where
  closed : Bool
  deriving DecidableEq, Repr

/-- The redis client handle (`*redis.Client`). -/
structure RedisConn where
  closed : Bool
  deriving DecidableEq, Repr

/-- Outcome of calling a `Close` function: it either returns normally or
the call panics (nil-pointer dereference). -/
inductive CloseOutcome where
  | ok
  | nilPanic
  deriving DecidableEq, Repr

/-- `mysql.Close` (src/dao/mysql/mysql.go): `_ = db.Close()` on the
package-level `var db *sqlx.DB`. When `db` is nil (Init never succeeded)
the promoted-method call dereferences the nil pointer and panics; on a live
handle `(*sql.DB).Close` closes the pool and is a safe no-op when called
again. -/
def mysqlCloseFn : Option SqlConn → CloseOutcome × Option SqlConn
  | none => (.nilPanic, none)
  | some c => (.ok, some { c with closed := true })

/-- `redis.Close` (the redis dao package): `_ = rdb.Close()` on the
package-level `var rdb *redis.Client`; same nil / live-handle behaviour. -/
def redisCloseFn : Option RedisConn → CloseOutcome × Option RedisConn
  | none => (.nilPanic, none)
  | some c => (.ok, some { c with closed := true })

/-- The effect of `mysql.Init` (src/dao/mysql/mysql.go) on the
package-level `db`: `db, err = sqlx.Connect("mysql", dsn)` — on a connect
error the multiple assignment leaves `db` nil and returns the error; on
success `db` is the new pool (the pool-size setters then run on it).
Returns the resulting `db` together with the error result. -/
def mysqlInit (connectResult : Except String SqlConn) :
    Option SqlConn × Option String :=
  match connectResult with
  | .error e => (none, some e)
  | .ok conn => (some conn, none)

/-- The effect of `redis.Init` (the redis dao package) on the
package-level `rdb`: `rdb = redis.NewClient(&redis.Options{...})` is
assigned unconditionally BEFORE the ping, so even when the ping fails and
`Init` returns its error, `rdb` holds the freshly constructed (non-nil)
client. -/
def redisInit (pingResult : Option String) :
    Option RedisConn × Option String :=
  (some { closed := false }, pingResult)

/-! ## The logger package (src/logger/logger.go) -/

/-- `strings.ToLower` / `bytes.ToLower`: per-character lower-casing over
the underlying character sequence (the strings under test are ASCII). -/
def strToLower (s : String) : String := ⟨s.data.map Char.toLower⟩

/-- zap severity levels. -/
inductive Level where
  | debug | info | warn | error | dpanic | panic | fatal
  deriving DecidableEq, Repr

/-- One branch of `zapcore.Level.unmarshalText`: the exact match table
("debug"/"DEBUG", …, "" meaning info). -/
def levelOfText : String → Option Level
  | "debug" => some .debug
  | "DEBUG" => some .debug
  | "info" => some .info
  | "INFO" => some .info
  | "" => some .info
  | "warn" => some .warn
  | "WARN" => some .warn
  | "error" => some .error
  | "ERROR" => some .error
  | "dpanic" => some .dpanic
  | "DPANIC" => some .dpanic
  | "panic" => some .panic
  | "PANIC" => some .panic
  | "fatal" => some .fatal
  | "FATAL" => some .fatal
  | _ => none

/-- `zapcore.Level.UnmarshalText`: tries the text as given, then lowercased
(`bytes.ToLower`); `none` models the "unrecognized level" error. -/
def unmarshalLevelText (s : String) : Option Level :=
  (levelOfText s).orElse fun _ => levelOfText (strToLower s)

/-- The encoder configuration built by `getEncoder`: production config with
the repository's overrides. -/
structure EncoderConfig where
  timeKey : String
  iso8601Time : Bool
  capitalLevel : Bool
  secondsDuration : Bool
  shortCaller : Bool
  deriving DecidableEq, Repr

/-- `getEncoder` (src/logger/logger.go): JSON encoder over
`NewProductionEncoderConfig` with `time` key, ISO-8601 times, capitalized
levels, seconds-encoded durations and short caller locations. -/
def getEncoder : EncoderConfig :=
  { timeKey := "time", iso8601Time := true, capitalLevel := true,
    secondsDuration := true, shortCaller := true }

/-- The lumberjack rolling-file writer configuration built by
`getLogWriter`. Constructing it performs no I/O: the destination file is
opened lazily on the first write. -/
structure LogWriter where
  filename : String
  maxSize : Int
  maxBackups : Int
  maxAge : Int
  compress : Bool
  deriving DecidableEq, Repr

/-- `getLogWriter` (src/logger/logger.go): wraps a `lumberjack.Logger` with
the given filename and rotation thresholds, `Compress: false`, in a
`WriteSyncer`. It has no error return. -/
def getLogWriter (filename : String) (maxSize maxBackup maxAge : Int) :
    LogWriter :=
  { filename := filename, maxSize := maxSize, maxBackups := maxBackup,
    maxAge := maxAge, compress := false }

/-- A constructed zap logger: core (writer + encoder + minimum level) plus
the `AddCaller` option. -/
structure ZapLogger where
  writer : LogWriter
  encoder : EncoderConfig
  level : Level
  addCaller : Bool
  deriving DecidableEq, Repr

/-- The process-wide global logger installed via `zap.ReplaceGlobals`.
`none` models the initial no-op global logger. -/
structure ZapGlobal where
  installed : Option ZapLogger
  deriving DecidableEq, Repr

/-- The configuration values `logger.Init` reads through viper, plus what
the operating system would answer were the log destination opened
(`openDestinationResult`); the latter exists in the model only to express
that `Init` never consults it (lumberjack opens the file lazily). -/
structure LogEnv where
  filename : String
  maxSize : Int
  maxBackups : Int
  maxAge : Int
  level : String
  openDestinationResult : Except String Unit
  deriving Repr

/-- `logger.Init` (src/logger/logger.go): builds the write syncer and
encoder, parses the configured level with `UnmarshalText` and returns the
parse error if it fails; otherwise builds the core, constructs the logger
with `AddCaller` and installs it with `zap.ReplaceGlobals`. Returns the
error result together with the (possibly replaced) global logger. -/
def loggerInit (env : LogEnv) (global : ZapGlobal) :
    Option String × ZapGlobal :=
  let writeSyncer := getLogWriter env.filename env.maxSize env.maxBackups env.maxAge
  let encoder := getEncoder
  match unmarshalLevelText env.level with
  | none => (some ("unrecognized level: " ++ env.level), global)
  | some l =>
    let logger : ZapLogger :=
      { writer := writeSyncer, encoder := encoder, level := l, addCaller := true }
    (none, { installed := some logger })

/-! ## Gin middlewares: `GinLogger` and `GinRecovery` -/

/-- Substring containment on character lists (needle occurs inside hay). -/
def charsContain (hay needle : List Char) : Bool :=
  match hay with
  | [] => needle.isEmpty
  | _ :: t => needle.isPrefixOf hay || charsContain t needle

/-- `strings.Contains`. -/
def strContains (s sub : String) : Bool :=
  charsContain s.toList sub.toList

/-- The dynamic error wrapped inside a `*net.OpError` (its `Err` field). -/
inductive OpInner where
  /-- A `*os.SyscallError`; `msg` is what its `Error()` method returns. -/
  | syscallErr (msg : String)
  /-- Any other error value, with its message. -/
  | otherErr (msg : String)
  deriving DecidableEq, Repr

/-- A Go `panic` value as seen by `recover()` in `GinRecovery`. -/
inductive PanicValue where
  /-- A `*net.OpError` (implements `error`) wrapping `inner`. -/
  | opError (inner : OpInner)
  /-- Some other value that implements the `error` interface. -/
  | otherError (msg : String)
  /-- A value that does not implement `error` (e.g. a plain string or int). -/
  | nonError (repr : String)
  deriving DecidableEq, Repr

/-- The message of an `OpInner`, i.e. `ne.Err.Error()`. -/
def OpInner.message : OpInner → String
  | .syscallErr m => m
  | .otherErr m => m

/-- The `brokenPipe` classification in `GinRecovery`: the recovered value is
a `*net.OpError` whose `Err` is a `*os.SyscallError` whose lowercased
message contains "broken pipe" or "connection reset by peer". -/
def isBrokenPipe : PanicValue → Bool
  | .opError (.syscallErr msg) =>
    strContains (strToLower msg) "broken pipe" ||
      strContains (strToLower msg) "connection reset by peer"
  | _ => false

/-- The type assertion `err.(error)`: succeeds (returning the error's
message) exactly when the dynamic value implements `error`; a failed
assertion panics in Go. -/
def asGoError : PanicValue → Option String
  | .opError i => some i.message
  | .otherError m => some m
  | .nonError _ => none

/-- The inbound HTTP request data the middlewares read. -/
structure HttpRequest where
  method : String
  path : String
  rawQuery : String
  clientIP : String
  userAgent : String
  headerLines : List String
  body : String
  deriving DecidableEq, Repr

/-- `httputil.DumpRequest(c.Request, body)`: the request line and headers,
with the body appended only when `body` is true. -/
def dumpRequest (r : HttpRequest) (body : Bool) : String :=
  r.method ++ " " ++ r.path ++
    (if r.rawQuery = "" then "" else "?" ++ r.rawQuery) ++ " HTTP/1.1\r\n" ++
    String.join (r.headerLines.map (· ++ "\r\n")) ++ "\r\n" ++
    (if body then r.body else "")

/-- gin error types; `c.Error` attaches `ErrorTypePrivate`. -/
inductive GinErrorType where
  | typPrivate | typPublic
  deriving DecidableEq, Repr

/-- One entry of `c.Errors`. -/
structure GinError where
  msg : String
  typ : GinErrorType
  deriving DecidableEq, Repr

/-- The per-request gin context state the middlewares touch. -/
structure GinContext where
  req : HttpRequest
  /-- `c.Writer.Status()`: gin's response writer defaults to 200. -/
  status : Nat
  /-- Whether anything was written to the response (status or body). -/
  responseWritten : Bool
  errors : List GinError
  aborted : Bool
  deriving DecidableEq, Repr

/-- The context at request entry. -/
def mkContext (r : HttpRequest) : GinContext :=
  { req := r, status := 200, responseWritten := false, errors := [], aborted := false }

/-- A structured field of a zap log record. -/
inductive Field where
  | str (key val : String)
  | int (key : String) (val : Nat)
  | duration (key : String) (val : Nat)
  /-- `zap.Any("error", err)` with the recovered panic value. -/
  | anyPanic (key : String) (val : PanicValue)
  deriving DecidableEq, Repr

/-- One emitted zap log record. -/
structure LogRecord where
  level : Level
  msg : String
  fields : List Field
  deriving DecidableEq, Repr

/-- `debug.Stack()`: the execution stack of the calling goroutine; its
contents are runtime-dependent, modelled as an abstract constant. -/
def debugStack : String := "<goroutine stack>"

/-- What the business handler (the downstream of `GinRecovery`) does with the
request: either it completes, leaving a response status and a list of
private errors it attached, or it panics with a value. -/
inductive HandlerOutcome where
  | completes (status : Nat) (privErrors : List String)
  | panics (v : PanicValue)
  deriving DecidableEq, Repr

/-- Result of running `GinRecovery`'s wrapped invocation: the final
context, the log records it emitted, and — if a panic escaped the deferred
handler itself (a failed `err.(error)` assertion) — the escaping value. -/
structure RecoveryResult where
  ctx : GinContext
  logs : List LogRecord
  escaped : Option PanicValue
  deriving DecidableEq, Repr

/-- `GinRecovery(stack)` (src/logger/logger.go) applied to a downstream
with outcome `outcome`, starting from context `c`. On a recovered panic:
classify `brokenPipe`; dump the request without body; in the benign branch
log one error record (path, error, request), attach the error to the
context (`c.Error(err.(error))` — if the assertion fails, that panic
escapes) and `c.Abort()` without writing a response; otherwise log one
error record ("[Recovery from panic]", error, request, plus the stack dump
iff `stack`) and `c.AbortWithStatus(500)`. -/
def ginRecovery (stack : Bool) (outcome : HandlerOutcome) (c : GinContext) :
    RecoveryResult :=
  match outcome with
  | .completes st errs =>
    let attached := errs.map fun m => GinError.mk m .typPrivate
    let c' : GinContext :=
      { c with status := st, responseWritten := true, errors := c.errors ++ attached }
    { ctx := c', logs := [], escaped := none }
  | .panics v =>
    let httpRequest := dumpRequest c.req false
    if isBrokenPipe v then
      match asGoError v with
      | some e =>
        { ctx := { c with errors := c.errors ++ [⟨e, .typPrivate⟩], aborted := true },
          logs := [{ level := .error, msg := c.req.path,
                     fields := [.anyPanic "error" v, .str "request" httpRequest] }],
          escaped := none }
      | none =>
        -- `err.(error)` fails: the deferred handler itself panics
        { ctx := c,
          logs := [{ level := .error, msg := c.req.path,
                     fields := [.anyPanic "error" v, .str "request" httpRequest] }],
          escaped := some v }
    else
      let record : LogRecord :=
        if stack then
          { level := .error, msg := "[Recovery from panic]",
            fields := [.anyPanic "error" v, .str "request" httpRequest,
                       .str "stack" debugStack] }
        else
          { level := .error, msg := "[Recovery from panic]",
            fields := [.anyPanic "error" v, .str "request" httpRequest] }
      { ctx := { c with status := 500, responseWritten := true, aborted := true },
        logs := [record], escaped := none }

/-- Two-digit decimal rendering used by gin's `%02d`. -/
def pad2 (n : Nat) : String :=
  if n < 10 then "0" ++ toString n else toString n

/-- `errorMsgs.String()` of gin: "" when empty, otherwise one
"Error #NN: msg\n" line per error. -/
def ginErrorsString (errs : List GinError) : String :=
  String.join ((List.range errs.length).zip errs |>.map fun p =>
    "Error #" ++ pad2 (p.1 + 1) ++ ": " ++ p.2.msg ++ "\n")

/-- `c.Errors.ByType(gin.ErrorTypePrivate)`. -/
def privateErrors (errs : List GinError) : List GinError :=
  errs.filter (·.typ = .typPrivate)

/-- The telemetry record `GinLogger` emits after `c.Next()` returns:
`zap.L().Info(path, status, method, path, query, ip, user-agent, errors,
cost)`. -/
def telemetryRecord (r : HttpRequest) (c : GinContext) (cost : Nat) : LogRecord :=
  { level := .info, msg := r.path,
    fields := [.int "status" c.status,
               .str "method" r.method,
               .str "path" r.path,
               .str "query" r.rawQuery,
               .str "ip" r.clientIP,
               .str "user-agent" r.userAgent,
               .str "errors" (ginErrorsString (privateErrors c.errors)),
               .duration "cost" cost] }

/-- One request through `GinLogger` wrapping `GinRecovery` wrapping the
Business handler (the chain of the spec: Telemetry → Recovery → handler).
`GinLogger` captures start time, path and query, runs the downstream, and
after it returns emits exactly one info record with the elapsed duration
`cost`; if a panic escaped the downstream (only possible through the failed
assertion branch), `GinLogger` — which has no recover of its own — emits
nothing. Returns all log records in emission order with the final
context. -/
def requestPipeline (stack : Bool) (cost : Nat) (r : HttpRequest)
    (outcome : HandlerOutcome) : List LogRecord × GinContext :=
  let c0 := mkContext r
  let res := ginRecovery stack outcome c0
  match res.escaped with
  | some _ => (res.logs, res.ctx)
  | none => (res.logs ++ [telemetryRecord r res.ctx cost], res.ctx)

/-! ## Concrete scenarios -/

/-- Every external call succeeds. -/
def cleanWorld : World :=
  { settingsInitErr := none, loggerInitErr := none, mysqlInitErr := none,
    redisInitErr := none, shutdownErr := none }

/-- Startup succeeds but the 5-second drain deadline elapses, so
`srv.Shutdown` returns the context error. -/
def timeoutWorld : World :=
  { settingsInitErr := none, loggerInitErr := none, mysqlInitErr := none,
    redisInitErr := none, shutdownErr := some "context deadline exceeded" }

/-- `redis.Init` fails after settings, logger and mysql initialized. -/
def redisFailWorld : World :=
  { settingsInitErr := none, loggerInitErr := none, mysqlInitErr := none,
    redisInitErr := some "dial tcp 127.0.0.1:6379: connect: connection refused",
    shutdownErr := none }

/-! ## Theorems -/

/-- **C7.** On a clean shutdown (all initializers succeed and
`srv.Shutdown` returns nil within the 5-second deadline), `main` releases
the resource handles in exactly reverse acquisition order: the redis
handle is closed before the mysql handle, which is closed before the
logger sink is flushed — each release occurring exactly once. -/
theorem mainCleanShutdownReverseOrder (w : World) (h : w.startupOk)
    (hsd : w.shutdownErr = none) :
    (runMain w).indexOf Event.redisClose < (runMain w).indexOf Event.mysqlClose ∧
    (runMain w).indexOf Event.mysqlClose < (runMain w).indexOf Event.loggerSync ∧
    (runMain w).count Event.redisClose = 1 ∧
    (runMain w).count Event.mysqlClose = 1 ∧
    (runMain w).count Event.loggerSync = 1 := by
  obtain ⟨h1, h2, h3, h4⟩ := h
  have htrace : runMain w =
      [Event.logDebug "logger initialized successfully", Event.listenerStart,
       Event.logInfo "Shutdown Server ...", Event.logInfo "Server exiting",
       Event.redisClose, Event.mysqlClose, Event.loggerSync] := by
    simp [runMain, h1, h2, h3, h4, hsd]
  rw [htrace]
  decide

theorem mainCleanShutdownReverseOrder_witness :
    (runMain cleanWorld).indexOf Event.redisClose <
      (runMain cleanWorld).indexOf Event.mysqlClose ∧
    (runMain cleanWorld).indexOf Event.mysqlClose <
      (runMain cleanWorld).indexOf Event.loggerSync ∧
    (runMain cleanWorld).count Event.redisClose = 1 ∧
    (runMain cleanWorld).count Event.mysqlClose = 1 ∧
    (runMain cleanWorld).count Event.loggerSync = 1 :=
  mainCleanShutdownReverseOrder cleanWorld ⟨rfl, rfl, rfl, rfl⟩ rfl

/-- **C1 (counterexample).** When the drain deadline elapses
(`srv.Shutdown` returns a non-nil error), the run does log the condition
at fatal level, but — contrary to the claim — the process exits with code
1 right there (`zap.L().Fatal` calls `os.Exit(1)`), so the deferred
`redis.Close`, `mysql.Close` and logger sync never run and the final
"Server exiting" transition is never logged. -/
theorem mainShutdownTimeout_counterexample :
    Event.logFatal "Server Shutdown" ∈ runMain timeoutWorld ∧
    Event.exitProcess 1 ∈ runMain timeoutWorld ∧
    Event.redisClose ∉ runMain timeoutWorld ∧
    Event.mysqlClose ∉ runMain timeoutWorld ∧
    Event.loggerSync ∉ runMain timeoutWorld ∧
    Event.logInfo "Server exiting" ∉ runMain timeoutWorld := by
  decide

/-- **C1 (amended).** If the drain deadline elapses before all in-flight
requests complete (`srv.Shutdown` returns a non-nil error), `main` records
the deadline-exceeded condition as a fatal-logged event, and that fatal
log itself aborts the process with exit code 1: resource release does not
happen — none of the deferred `redis.Close`, `mysql.Close` or logger sync
runs, and the terminated-state "Server exiting" record is not emitted. -/
theorem mainShutdownTimeoutAborts (w : World) (h : w.startupOk) (e : String)
    (hsd : w.shutdownErr = some e) :
    runMain w =
      [Event.logDebug "logger initialized successfully", Event.listenerStart,
       Event.logInfo "Shutdown Server ...", Event.logFatal "Server Shutdown",
       Event.exitProcess 1] ∧
    Event.redisClose ∉ runMain w ∧
    Event.mysqlClose ∉ runMain w ∧
    Event.loggerSync ∉ runMain w := by
  obtain ⟨h1, h2, h3, h4⟩ := h
  have htrace : runMain w =
      [Event.logDebug "logger initialized successfully", Event.listenerStart,
       Event.logInfo "Shutdown Server ...", Event.logFatal "Server Shutdown",
       Event.exitProcess 1] := by
    simp [runMain, h1, h2, h3, h4, hsd]
  rw [htrace]
  simp

theorem mainShutdownTimeoutAborts_witness :
    (runMain timeoutWorld =
      [Event.logDebug "logger initialized successfully", Event.listenerStart,
       Event.logInfo "Shutdown Server ...", Event.logFatal "Server Shutdown",
       Event.exitProcess 1] ∧
    Event.redisClose ∉ runMain timeoutWorld ∧
    Event.mysqlClose ∉ runMain timeoutWorld ∧
    Event.loggerSync ∉ runMain timeoutWorld) :=
  mainShutdownTimeoutAborts timeoutWorld ⟨rfl, rfl, rfl, rfl⟩
    "context deadline exceeded" rfl

/-- **C2 (counterexample).** In the startup sequence where `redis.Init`
fails (settings, logger and mysql all initialized before it), the
already-registered deferred `mysql.Close` runs on the way out: an
earlier-initialized subsystem IS explicitly torn down by the abort path,
contrary to the claim. -/
theorem mainStartupTeardown_counterexample :
    redisFailWorld.mysqlInitErr = none ∧
    redisFailWorld.redisInitErr.isSome = true ∧
    Event.mysqlClose ∈ runMain redisFailWorld := by
  decide

/-- **C2 (amended).** Any initializer error aborts the whole startup:
`main` prints the error and returns without ever starting the listener,
and `redis.Close` never runs. Earlier-initialized subsystems are torn down
only through deferred cleanups that were already registered: the deferred
`mysql.Close` runs exactly when the failing initializer is `redis.Init`,
and the deferred logger sync runs exactly when the failing initializer is
`mysql.Init` or `redis.Init`. -/
theorem mainStartupFailFast (w : World)
    (h : w.settingsInitErr.isSome = true ∨ w.loggerInitErr.isSome = true ∨
         w.mysqlInitErr.isSome = true ∨ w.redisInitErr.isSome = true) :
    Event.listenerStart ∉ runMain w ∧
    (∃ m, Event.printErr m ∈ runMain w) ∧
    Event.redisClose ∉ runMain w ∧
    (Event.mysqlClose ∈ runMain w ↔
      w.settingsInitErr = none ∧ w.loggerInitErr = none ∧
      w.mysqlInitErr = none ∧ w.redisInitErr.isSome = true) ∧
    (Event.loggerSync ∈ runMain w ↔
      w.settingsInitErr = none ∧ w.loggerInitErr = none ∧
      (w.mysqlInitErr.isSome = true ∨ w.redisInitErr.isSome = true)) := by
  obtain ⟨s, l, m, r, sd⟩ := w
  cases s <;> cases l <;> cases m <;> cases r <;> simp_all [runMain]

theorem mainStartupFailFast_witness :
    (Event.listenerStart ∉ runMain redisFailWorld ∧
    (∃ m, Event.printErr m ∈ runMain redisFailWorld) ∧
    Event.redisClose ∉ runMain redisFailWorld ∧
    (Event.mysqlClose ∈ runMain redisFailWorld ↔
      redisFailWorld.settingsInitErr = none ∧
      redisFailWorld.loggerInitErr = none ∧
      redisFailWorld.mysqlInitErr = none ∧
      redisFailWorld.redisInitErr.isSome = true) ∧
    (Event.loggerSync ∈ runMain redisFailWorld ↔
      redisFailWorld.settingsInitErr = none ∧
      redisFailWorld.loggerInitErr = none ∧
      (redisFailWorld.mysqlInitErr.isSome = true ∨
        redisFailWorld.redisInitErr.isSome = true))) :=
  mainStartupFailFast redisFailWorld (Or.inr (Or.inr (Or.inr rfl)))

/-- **C3 (counterexample).** After a failed `mysql.Init` (connection
refused), the package-level `db` is nil — `sqlx.Connect` returns a nil
pool together with the error — and `mysql.Close` then panics on the nil
dereference, contrary to the claim that invoking release is safe when
acquisition partially failed. -/
theorem closeNilHandle_counterexample :
    (mysqlInit (.error "dial tcp 127.0.0.1:3306: connect: connection refused")).2
      = some "dial tcp 127.0.0.1:3306: connect: connection refused" ∧
    (mysqlInit (.error "dial tcp 127.0.0.1:3306: connect: connection refused")).1
      = none ∧
    (mysqlCloseFn (mysqlInit
      (.error "dial tcp 127.0.0.1:3306: connect: connection refused")).1).1
      = CloseOutcome.nilPanic := by
  decide

/-- **C3 (amended).** After a successful `Init`, invoking `mysql.Close` or
`redis.Close` twice is safe: both calls return without panicking and the
second call leaves the already-closed handle unchanged (no double-free).
When `mysql.Init` fails, however, `sqlx.Connect` leaves the package-level
`db` nil and `mysql.Close` panics on the nil dereference; `redis.Close`
after a failed `redis.Init` does not panic, because `redis.Init` assigns
`rdb` via `redis.NewClient` before the failing ping check. -/
theorem closeIdempotentOnLiveHandle (mc : SqlConn) (rc : RedisConn)
    (e p : String) :
    (mysqlCloseFn (some mc)).1 = CloseOutcome.ok ∧
    (mysqlCloseFn (mysqlCloseFn (some mc)).2).1 = CloseOutcome.ok ∧
    (mysqlCloseFn (mysqlCloseFn (some mc)).2).2 = (mysqlCloseFn (some mc)).2 ∧
    (redisCloseFn (some rc)).1 = CloseOutcome.ok ∧
    (redisCloseFn (redisCloseFn (some rc)).2).1 = CloseOutcome.ok ∧
    (redisCloseFn (redisCloseFn (some rc)).2).2 = (redisCloseFn (some rc)).2 ∧
    (mysqlInit (.error e)).1 = none ∧
    (mysqlCloseFn (mysqlInit (.error e)).1).1 = CloseOutcome.nilPanic ∧
    (redisInit (some p)).2 = some p ∧
    (redisInit (some p)).1.isSome = true ∧
    (redisCloseFn (redisInit (some p)).1).1 = CloseOutcome.ok := by
  simp [mysqlCloseFn, redisCloseFn, mysqlInit, redisInit]

/-! ### Middleware helper lemmas -/

/-- No panic ever escapes `GinRecovery`: the only escaping branch (a failed
`err.(error)` assertion inside the benign path) is unreachable because the
benign classification forces the value to be a `*net.OpError`. -/
theorem ginRecovery_escaped_eq_none (stack : Bool) (outcome : HandlerOutcome)
    (c : GinContext) : (ginRecovery stack outcome c).escaped = none := by
  cases outcome with
  | completes st errs => simp [ginRecovery]
  | panics v =>
    cases hv : isBrokenPipe v
    · simp [ginRecovery, hv]
    · cases v with
      | opError i => cases i <;> simp [ginRecovery, hv, asGoError]
      | otherError m => simp [isBrokenPipe] at hv
      | nonError s => simp [isBrokenPipe] at hv

/-- Every record `GinRecovery` emits is at error level. -/
theorem ginRecovery_logs_error_level (stack : Bool) (outcome : HandlerOutcome)
    (c : GinContext) :
    ∀ rec ∈ (ginRecovery stack outcome c).logs, rec.level = Level.error := by
  cases outcome with
  | completes st errs => simp [ginRecovery]
  | panics v =>
    cases hv : isBrokenPipe v
    · cases stack <;> simp [ginRecovery, hv]
    · cases v with
      | opError i => cases i <;> simp_all [ginRecovery, isBrokenPipe, asGoError]
      | otherError m => simp [isBrokenPipe] at hv
      | nonError s => simp [isBrokenPipe] at hv

/-! ### Middleware theorems -/

/-- Example request used by the concrete witnesses. -/
def sampleRequest : HttpRequest :=
  { method := "GET", path := "/ping", rawQuery := "a=1",
    clientIP := "127.0.0.1", userAgent := "curl/8.0",
    headerLines := ["Host: localhost:8080"], body := "" }

/-- A recovered value classified as a benign disconnect. -/
def brokenPipePanic : PanicValue :=
  .opError (.syscallErr "write: broken pipe")

/-- **C4.** For a fault classified as a benign disconnect (a `*net.OpError`
wrapping a `*os.SyscallError` whose message contains "broken pipe" or
"connection reset by peer"), `GinRecovery` emits exactly one error-level
record carrying the fault value and the body-less request dump, attaches
the fault to the request context (a private gin error, so telemetry's
errors field reflects it), aborts further processing, and writes no HTTP
response or status (the writer state is untouched); no panic escapes. -/
theorem ginRecoveryBenignDisconnect (stack : Bool) (r : HttpRequest)
    (v : PanicValue) (hb : isBrokenPipe v = true) :
    (ginRecovery stack (.panics v) (mkContext r)).logs =
      [{ level := .error, msg := r.path,
         fields := [.anyPanic "error" v, .str "request" (dumpRequest r false)] }] ∧
    (∃ e, asGoError v = some e ∧
      (ginRecovery stack (.panics v) (mkContext r)).ctx.errors =
        [{ msg := e, typ := .typPrivate }]) ∧
    (ginRecovery stack (.panics v) (mkContext r)).ctx.aborted = true ∧
    (ginRecovery stack (.panics v) (mkContext r)).ctx.responseWritten = false ∧
    (ginRecovery stack (.panics v) (mkContext r)).ctx.status = 200 ∧
    (ginRecovery stack (.panics v) (mkContext r)).escaped = none := by
  cases v with
  | opError i =>
    cases i with
    | syscallErr msg =>
      simp [ginRecovery, hb, asGoError, OpInner.message, mkContext]
    | otherErr msg => simp [isBrokenPipe] at hb
  | otherError m => simp [isBrokenPipe] at hb
  | nonError s => simp [isBrokenPipe] at hb

theorem ginRecoveryBenignDisconnect_witness :
    ((ginRecovery true (.panics brokenPipePanic) (mkContext sampleRequest)).logs =
      [{ level := .error, msg := sampleRequest.path,
         fields := [.anyPanic "error" brokenPipePanic,
                    .str "request" (dumpRequest sampleRequest false)] }] ∧
    (∃ e, asGoError brokenPipePanic = some e ∧
      (ginRecovery true (.panics brokenPipePanic) (mkContext sampleRequest)).ctx.errors =
        [{ msg := e, typ := .typPrivate }]) ∧
    (ginRecovery true (.panics brokenPipePanic) (mkContext sampleRequest)).ctx.aborted = true ∧
    (ginRecovery true (.panics brokenPipePanic) (mkContext sampleRequest)).ctx.responseWritten = false ∧
    (ginRecovery true (.panics brokenPipePanic) (mkContext sampleRequest)).ctx.status = 200 ∧
    (ginRecovery true (.panics brokenPipePanic) (mkContext sampleRequest)).escaped = none) :=
  ginRecoveryBenignDisconnect true sampleRequest brokenPipePanic (by decide)

/-- **C5.** For a non-benign fault, `GinRecovery` emits exactly one
error-level record with the fault value and request dump — including the
stack dump if and only if the `stack` flag is true — then aborts the chain
with HTTP status 500; the fault never escapes the middleware. -/
theorem ginRecoveryOtherFault (stack : Bool) (r : HttpRequest)
    (v : PanicValue) (hb : isBrokenPipe v = false) :
    (ginRecovery stack (.panics v) (mkContext r)).logs =
      [{ level := .error, msg := "[Recovery from panic]",
         fields := [.anyPanic "error" v, .str "request" (dumpRequest r false)] ++
           (if stack then [.str "stack" debugStack] else []) }] ∧
    (ginRecovery stack (.panics v) (mkContext r)).ctx.status = 500 ∧
    (ginRecovery stack (.panics v) (mkContext r)).ctx.aborted = true ∧
    (ginRecovery stack (.panics v) (mkContext r)).ctx.responseWritten = true ∧
    (ginRecovery stack (.panics v) (mkContext r)).escaped = none := by
  cases stack <;> simp [ginRecovery, hb, mkContext]

theorem ginRecoveryOtherFault_witness :
    ((ginRecovery true (.panics (.nonError "boom")) (mkContext sampleRequest)).logs =
      [{ level := .error, msg := "[Recovery from panic]",
         fields := [.anyPanic "error" (.nonError "boom"),
                    .str "request" (dumpRequest sampleRequest false)] ++
           (if true then [.str "stack" debugStack] else []) }] ∧
    (ginRecovery true (.panics (.nonError "boom")) (mkContext sampleRequest)).ctx.status = 500 ∧
    (ginRecovery true (.panics (.nonError "boom")) (mkContext sampleRequest)).ctx.aborted = true ∧
    (ginRecovery true (.panics (.nonError "boom")) (mkContext sampleRequest)).ctx.responseWritten = true ∧
    (ginRecovery true (.panics (.nonError "boom")) (mkContext sampleRequest)).escaped = none) :=
  ginRecoveryOtherFault true sampleRequest (.nonError "boom") (by decide)

/-- **C6.** Every request through `GinLogger` produces exactly one
telemetry record, emitted after all downstream records (recovery
included): the emitted list is the downstream records — all error-level —
followed by the single info-level telemetry record, which carries the
path, the final resolved status, method, query, client IP, user agent, the
joined private-scoped errors, and the elapsed duration; the join of an
empty error list is the empty string. -/
theorem ginLoggerTelemetry (stack : Bool) (cost : Nat) (r : HttpRequest)
    (outcome : HandlerOutcome) :
    (requestPipeline stack cost r outcome).1 =
      (ginRecovery stack outcome (mkContext r)).logs ++
        [telemetryRecord r (ginRecovery stack outcome (mkContext r)).ctx cost] ∧
    (∀ rec ∈ (ginRecovery stack outcome (mkContext r)).logs,
      rec.level = Level.error) ∧
    (telemetryRecord r (ginRecovery stack outcome (mkContext r)).ctx cost).level
      = Level.info ∧
    (telemetryRecord r (ginRecovery stack outcome (mkContext r)).ctx cost).fields =
      [.int "status" (ginRecovery stack outcome (mkContext r)).ctx.status,
       .str "method" r.method, .str "path" r.path, .str "query" r.rawQuery,
       .str "ip" r.clientIP, .str "user-agent" r.userAgent,
       .str "errors" (ginErrorsString
         (privateErrors (ginRecovery stack outcome (mkContext r)).ctx.errors)),
       .duration "cost" cost] ∧
    ginErrorsString [] = "" := by
  refine ⟨?_, ginRecovery_logs_error_level stack outcome (mkContext r), rfl, rfl, rfl⟩
  have h := ginRecovery_escaped_eq_none stack outcome (mkContext r)
  simp [requestPipeline, h]

theorem ginLoggerTelemetry_witness :
    ((requestPipeline false 42 sampleRequest (.completes 200 [])).1 =
      (ginRecovery false (.completes 200 []) (mkContext sampleRequest)).logs ++
        [telemetryRecord sampleRequest
          (ginRecovery false (.completes 200 []) (mkContext sampleRequest)).ctx 42] ∧
    (∀ rec ∈ (ginRecovery false (.completes 200 []) (mkContext sampleRequest)).logs,
      rec.level = Level.error) ∧
    (telemetryRecord sampleRequest
      (ginRecovery false (.completes 200 []) (mkContext sampleRequest)).ctx 42).level
      = Level.info ∧
    (telemetryRecord sampleRequest
      (ginRecovery false (.completes 200 []) (mkContext sampleRequest)).ctx 42).fields =
      [.int "status" (ginRecovery false (.completes 200 []) (mkContext sampleRequest)).ctx.status,
       .str "method" sampleRequest.method, .str "path" sampleRequest.path,
       .str "query" sampleRequest.rawQuery, .str "ip" sampleRequest.clientIP,
       .str "user-agent" sampleRequest.userAgent,
       .str "errors" (ginErrorsString (privateErrors
         (ginRecovery false (.completes 200 []) (mkContext sampleRequest)).ctx.errors)),
       .duration "cost" 42] ∧
    ginErrorsString [] = "") :=
  ginLoggerTelemetry false 42 sampleRequest (.completes 200 [])

/-- **C9.** The unchecked type assertion `err.(error)` in the
benign-disconnect branch can never fail: whenever the `brokenPipe`
classification is true the recovered value is a `*net.OpError`, which
implements `error`, so the conversion succeeds. -/
theorem brokenPipeAssertionSafe (v : PanicValue)
    (h : isBrokenPipe v = true) : (asGoError v).isSome = true := by
  cases v with
  | opError i => cases i <;> simp [asGoError]
  | otherError m => simp [asGoError]
  | nonError s => simp [isBrokenPipe] at h

theorem brokenPipeAssertionSafe_witness :
    (asGoError brokenPipePanic).isSome = true :=
  brokenPipeAssertionSafe brokenPipePanic (by decide)

/-! ### Logger initialization theorems -/

/-- The global logger before any `Init` call (zap's no-op default). -/
def initialGlobal : ZapGlobal := { installed := none }

/-- A configuration whose severity level parses but whose log destination
could not be opened by the operating system. -/
def envOpenFails : LogEnv :=
  { filename := "./web_app.log", maxSize := 100, maxBackups := 3,
    maxAge := 7, level := "info",
    openDestinationResult := .error "open ./web_app.log: permission denied" }

/-- A configuration with an unparseable severity level. -/
def envBadLevel : LogEnv :=
  { filename := "./web_app.log", maxSize := 100, maxBackups := 3,
    maxAge := 7, level := "verbose", openDestinationResult := .ok () }

/-- **C8 (counterexample).** `logger.Init` does not propagate I/O errors
from opening the log destination: on a configuration whose destination
open would fail (permission denied) but whose level parses, `Init` returns
nil — the lumberjack writer opens the file lazily on first write and
`getLogWriter` has no error return. -/
theorem loggerInitIgnoresOpenFailure_counterexample :
    (loggerInit envOpenFails initialGlobal).1 = none ∧
    envOpenFails.openDestinationResult =
      Except.error "open ./web_app.log: permission denied" :=
  ⟨rfl, rfl⟩

/-- **C8 (amended).** `logger.Init` returns a non-nil error exactly when
the configured severity level string is unparseable; it never observes the
outcome of opening the log destination (the construction of the writer
performs no I/O), so destination-open I/O errors are not propagated — in
all other cases it returns nil. -/
theorem loggerInitErrorIffBadLevel (env : LogEnv) (g : ZapGlobal) :
    ((loggerInit env g).1.isSome = true ↔ unmarshalLevelText env.level = none) ∧
    loggerInit env g =
      loggerInit { env with openDestinationResult := Except.ok () } g := by
  constructor
  · unfold loggerInit
    cases h : unmarshalLevelText env.level <;> simp [h]
  · rfl

theorem loggerInitErrorIffBadLevel_witness :
    (((loggerInit envBadLevel initialGlobal).1.isSome = true ↔
      unmarshalLevelText envBadLevel.level = none) ∧
    loggerInit envBadLevel initialGlobal =
      loggerInit { envBadLevel with openDestinationResult := Except.ok () }
        initialGlobal) :=
  loggerInitErrorIffBadLevel envBadLevel initialGlobal

/-- **C10.** A failed `logger.Init` leaves the process-wide global logger
unchanged: `zap.ReplaceGlobals` is reached only after the severity level
parses, so when `Init` returns an error the installed global sink is
exactly what it was before the call. -/
theorem loggerInitFailureFrame (env : LogEnv) (g : ZapGlobal)
    (h : (loggerInit env g).1.isSome = true) :
    (loggerInit env g).2 = g := by
  unfold loggerInit at h ⊢
  cases he : unmarshalLevelText env.level
  · simp [he]
  · simp [he] at h

theorem loggerInitFailureFrame_witness :
    (loggerInit envBadLevel initialGlobal).2 = initialGlobal :=
  loggerInitFailureFrame envBadLevel initialGlobal (by decide)

end WebApp
